import Mathlib

/-!
Verification of the BookStack OpenWebUI tool (`bookstack_tool.py`).

The development shallowly embeds the pure core of the tool:

* Python string primitives used by the code (`str.lower`, `str.split`,
  `str.strip`, `str.join`, `re.sub` for the five concrete patterns that
  occur, and a subset of `html.unescape`) as executable functions on
  `List Char` / `String`.  Python case mapping is modelled on the ASCII
  range, and `\s` as the ASCII whitespace class, which covers every string
  the tool manipulates.
* `Tools._optimize_query`, the two HTML-to-text pipelines, the client
  `BookStackApiClient.get` error path, and the `search` / `get_page`
  orchestrations.  Network responses are supplied by oracles, the event
  emitter is modelled as a presence flag plus an accumulated event list,
  and wall-clock metadata (`date_accessed`) is omitted from the event
  model since it does not influence any control flow or returned text.
-/

/-! ### Python string primitives -/

/-- ASCII whitespace class of Python: the characters matched by `\s` and
stripped by `str.strip` / split by `str.split` on ASCII text. -/
def pyIsSpace (c : Char) : Bool :=
  c = ' ' || c = '\t' || c = '\n' || c = '\r' || c = '\x0b' || c = '\x0c'

/-- Case mapping of Python `str.lower` on the ASCII range (characters outside
`A`–`Z` are left unchanged, as Python does for them). -/
def pyToLower (c : Char) : Char :=
  if 65 ≤ c.toNat ∧ c.toNat ≤ 90 then Char.ofNat (c.toNat + 32) else c

/-- Python `str.lower`. -/
def pyLower (s : String) : String :=
  String.mk (s.data.map pyToLower)

/-- Worker of `str.split()` with no separator: accumulate the current token
(reversed) and cut at whitespace, dropping empty tokens. -/
def splitAux : List Char → List Char → List (List Char)
  | [], acc => if acc.isEmpty then [] else [acc.reverse]
  | c :: cs, acc =>
    if pyIsSpace c then
      if acc.isEmpty then splitAux cs [] else acc.reverse :: splitAux cs []
    else splitAux cs (c :: acc)

/-- Python `str.split()` on `List Char`. -/
def pySplitCh (l : List Char) : List (List Char) :=
  splitAux l []

/-- Python `str.split()`: split on runs of whitespace, no empty tokens. -/
def pySplit (s : String) : List String :=
  (pySplitCh s.data).map String.mk

/-- Python `" ".join` at the `List Char` level. -/
def joinCh : List (List Char) → List Char
  | [] => []
  | [w] => w
  | w :: ws => w ++ (' ' :: joinCh ws)

/-- Python `" ".join(words)`. -/
def joinWords (ws : List String) : String :=
  String.mk (joinCh (ws.map String.data))

/-- Python `str.strip()` on `List Char`. -/
def stripCh (l : List Char) : List Char :=
  (((l.dropWhile pyIsSpace).reverse).dropWhile pyIsSpace).reverse

/-- Python `str.strip()`. -/
def pyStrip (s : String) : String :=
  String.mk (stripCh s.data)

/-! ### The query optimizer (`Tools._optimize_query`) -/

/-- The stopword set literal of `_optimize_query`, in source order (the
Python set literal repeats a few English words already listed; membership is
unaffected). -/
def stopwoorden : List String :=
  ["welke", "wat", "is", "zijn", "er", "de", "het", "een", "van", "in",
   "voor", "op", "aan", "met", "te", "hoe", "kan", "moet", "waar",
   "which", "what", "is", "are", "the", "a", "an", "of", "in", "for",
   "on", "at", "to", "how", "can", "should", "where", "there"]

/-- Filter of the comprehension
`[w for w in woorden if w not in stopwoorden and len(w) > 2]`. -/
def keepWord (w : String) : Bool :=
  !(stopwoorden.contains w) && w.length > 2

/-- Embedding of `Tools._optimize_query`: lower-case, split on whitespace,
drop stopwords and short tokens, fall back to the original query when
nothing survives, otherwise re-join with single spaces. -/
def optimize_query (query : String) : String :=
  let woorden := pySplit (pyLower query)
  let belangrijke := woorden.filter keepWord
  if belangrijke.length < 1 then query else joinWords belangrijke

/-- Statement of the optimizer contract in the words of the specification:
a token is dropped exactly when it is in the stopword set or has length at
most two, surviving tokens are re-joined with single spaces, and the
original query is returned when zero tokens survive. -/
def optimizeQuerySpec (query : String) : String :=
  let survivors :=
    (pySplit (pyLower query)).filter
      (fun w => !(stopwoorden.contains w || w.length ≤ 2))
  if survivors.isEmpty then query else joinWords survivors

theorem keepWord_eq_spec (w : String) :
    keepWord w = !(stopwoorden.contains w || w.length ≤ 2) := by
  unfold keepWord
  cases h : stopwoorden.contains w
  · simp only [h, Bool.not_false, Bool.true_and, Bool.false_or]
    by_cases h2 : w.length ≤ 2
    · have h3 : ¬ (w.length > 2) := by omega
      simp [h2, h3]
    · have h3 : w.length > 2 := by omega
      simp [h2, h3]
  · simp [h]

/-- C1: the optimizer lower-cases the query, splits it on whitespace, drops
tokens that are stopwords or of length at most two, re-joins survivors with
single spaces, and returns the original query when zero tokens survive; on
the input "welke pagina is dit" it yields "pagina dit". -/
theorem spec_c1_optimize_query :
    (∀ q : String, optimize_query q = optimizeQuerySpec q) ∧
    optimize_query "welke pagina is dit" = "pagina dit" := by
  constructor
  · intro q
    have hf : (pySplit (pyLower q)).filter keepWord
        = (pySplit (pyLower q)).filter
            (fun w => !(stopwoorden.contains w || w.length ≤ 2)) := by
      apply List.filter_congr
      intro w _
      exact keepWord_eq_spec w
    simp only [optimize_query, optimizeQuerySpec, hf]
    rcases h : (pySplit (pyLower q)).filter
        (fun w => !(stopwoorden.contains w || w.length ≤ 2)) with _ | ⟨w, ws⟩ <;>
      simp
  · decide

/-! ### Idempotence of the optimizer (C2) -/

theorem toNat_ofNat_valid (n : Nat) (h : n.isValidChar) :
    (Char.ofNat n).toNat = n := by
  simp [Char.ofNat, h, Char.ofNatAux, Char.toNat, UInt32.toNat]

theorem pyToLower_idem (c : Char) : pyToLower (pyToLower c) = pyToLower c := by
  unfold pyToLower
  by_cases h : 65 ≤ c.toNat ∧ c.toNat ≤ 90
  · rw [if_pos h]
    have hv : (c.toNat + 32).isValidChar := by
      constructor
      omega
    rw [toNat_ofNat_valid _ hv]
    rw [if_neg (by omega)]
  · rw [if_neg h, if_neg h]

theorem map_eq_self_of {α : Type} (f : α → α) :
    ∀ l : List α, (∀ a ∈ l, f a = a) → l.map f = l := by
  intro l
  induction l with
  | nil => intro _; rfl
  | cons a l ih =>
    intro h
    simp only [List.map_cons]
    rw [h a (by simp), ih (fun b hb => h b (by simp [hb]))]

theorem splitAux_nil (acc : List Char) :
    splitAux [] acc = if acc.isEmpty then [] else [acc.reverse] := rfl

theorem splitAux_cons (c : Char) (cs acc : List Char) :
    splitAux (c :: cs) acc =
      if pyIsSpace c then
        (if acc.isEmpty then splitAux cs [] else acc.reverse :: splitAux cs [])
      else splitAux cs (c :: acc) := rfl

theorem splitAux_good (l : List Char) : ∀ acc : List Char,
    (∀ c ∈ acc, pyIsSpace c = false) →
    ∀ w ∈ splitAux l acc, w ≠ [] ∧ ∀ c ∈ w, pyIsSpace c = false := by
  induction l with
  | nil =>
    intro acc hacc w hw
    rw [splitAux_nil] at hw
    cases acc with
    | nil => simp at hw
    | cons a as =>
      simp at hw
      subst hw
      refine ⟨by simp, ?_⟩
      intro c hc
      refine hacc c ?_
      rcases List.mem_append.mp hc with h | h
      · exact List.mem_cons_of_mem _ (List.mem_reverse.mp h)
      · simp at h
        simp [h]
  | cons c cs ih =>
    intro acc hacc w hw
    rw [splitAux_cons] at hw
    by_cases hsp : pyIsSpace c = true
    · rw [if_pos hsp] at hw
      cases acc with
      | nil => simp at hw; exact ih [] (by simp) w hw
      | cons a as =>
        rw [if_neg (by simp)] at hw
        rcases List.mem_cons.mp hw with h1 | h1
        · subst h1
          refine ⟨by simp, ?_⟩
          intro x hx
          exact hacc x (List.mem_reverse.mp hx)
        · exact ih [] (by simp) w h1
    · rw [if_neg hsp] at hw
      refine ih (c :: acc) ?_ w hw
      intro x hx
      rcases List.mem_cons.mp hx with rfl | h2
      · simpa using hsp
      · exact hacc x h2

theorem splitAux_chars (l : List Char) : ∀ acc w, w ∈ splitAux l acc →
    ∀ c ∈ w, c ∈ l ∨ c ∈ acc := by
  induction l with
  | nil =>
    intro acc w hw c hc
    rw [splitAux_nil] at hw
    cases acc with
    | nil => simp at hw
    | cons a as =>
      simp at hw
      subst hw
      refine Or.inr ?_
      rcases List.mem_append.mp hc with h | h
      · exact List.mem_cons_of_mem _ (List.mem_reverse.mp h)
      · simp at h
        simp [h]
  | cons x xs ih =>
    intro acc w hw c hc
    rw [splitAux_cons] at hw
    by_cases hsp : pyIsSpace x = true
    · rw [if_pos hsp] at hw
      cases acc with
      | nil =>
        simp at hw
        rcases ih [] w hw c hc with h | h
        · exact Or.inl (by simp [h])
        · simp at h
      | cons a as =>
        rw [if_neg (by simp)] at hw
        rcases List.mem_cons.mp hw with h1 | h1
        · subst h1
          exact Or.inr (List.mem_reverse.mp hc)
        · rcases ih [] w h1 c hc with h | h
          · exact Or.inl (by simp [h])
          · simp at h
    · rw [if_neg hsp] at hw
      rcases ih (x :: acc) w hw c hc with h | h
      · exact Or.inl (by simp [h])
      · rcases List.mem_cons.mp h with rfl | h2
        · exact Or.inl (by simp)
        · exact Or.inr h2

theorem splitAux_append_token (w : List Char)
    (hw : ∀ c ∈ w, pyIsSpace c = false) :
    ∀ l acc, splitAux (w ++ l) acc = splitAux l (w.reverse ++ acc) := by
  induction w with
  | nil => intro l acc; simp
  | cons c w' ih =>
    intro l acc
    have hc : pyIsSpace c = false := hw c (by simp)
    have hw' : ∀ x ∈ w', pyIsSpace x = false := fun x hx => hw x (by simp [hx])
    show splitAux (c :: (w' ++ l)) acc = _
    rw [splitAux_cons, if_neg (by simp [hc]), ih hw' l (c :: acc)]
    congr 1
    simp

theorem pySplitCh_joinCh : ∀ ws : List (List Char),
    (∀ w ∈ ws, w ≠ [] ∧ ∀ c ∈ w, pyIsSpace c = false) →
    pySplitCh (joinCh ws) = ws := by
  intro ws
  induction ws with
  | nil => intro _; rfl
  | cons w ws ih =>
    intro h
    have hw := h w (by simp)
    cases ws with
    | nil =>
      show pySplitCh (joinCh [w]) = [w]
      unfold pySplitCh
      show splitAux w [] = [w]
      have := splitAux_append_token w hw.2 [] []
      rw [List.append_nil] at this
      rw [this, splitAux_nil]
      rw [if_neg (by simp [List.isEmpty_iff, hw.1])]
      simp
    | cons w2 ws2 =>
      show pySplitCh (w ++ (' ' :: joinCh (w2 :: ws2))) = w :: w2 :: ws2
      unfold pySplitCh
      rw [splitAux_append_token w hw.2]
      rw [List.append_nil, splitAux_cons]
      rw [if_pos (by decide)]
      rw [if_neg (by simp [List.isEmpty_iff, hw.1])]
      rw [List.reverse_reverse]
      have := ih (fun x hx => h x (by simp [hx]))
      unfold pySplitCh at this
      rw [this]

theorem joinCh_map (f : Char → Char) (hf : f ' ' = ' ') :
    ∀ ws : List (List Char), (joinCh ws).map f = joinCh (ws.map (List.map f)) := by
  intro ws
  induction ws with
  | nil => rfl
  | cons w ws ih =>
    cases ws with
    | nil => rfl
    | cons w2 ws2 =>
      show (w ++ (' ' :: joinCh (w2 :: ws2))).map f = _
      rw [List.map_append, List.map_cons, hf, ih]
      rfl

theorem joinCh_ne_nil (w : List Char) (ws : List (List Char)) (hw : w ≠ []) :
    joinCh (w :: ws) ≠ [] := by
  cases ws with
  | nil => simpa using hw
  | cons w2 ws2 =>
    show w ++ (' ' :: joinCh (w2 :: ws2)) ≠ []
    simp

/-- Canonical form of a surviving token: it passes the filter, is non-empty,
contains no whitespace, and is fixed by lower-casing. -/
def goodToken (w : String) : Prop :=
  keepWord w = true ∧ w.data ≠ [] ∧ (∀ c ∈ w.data, pyIsSpace c = false) ∧
    w.data.map pyToLower = w.data

theorem optimize_query_cases (q : String) :
    optimize_query q = q ∨
    ∃ ws : List String, ws ≠ [] ∧ (∀ w ∈ ws, goodToken w) ∧
      optimize_query q = joinWords ws := by
  unfold optimize_query
  cases h : (pySplit (pyLower q)).filter keepWord with
  | nil => left; simp [h]
  | cons w ws' =>
    right
    refine ⟨w :: ws', by simp, ?_, by simp [h]⟩
    intro w' hw'
    have hmem : w' ∈ (pySplit (pyLower q)).filter keepWord := h ▸ hw'
    have hkeep : keepWord w' = true := List.of_mem_filter hmem
    have hmem2 : w' ∈ pySplit (pyLower q) := List.mem_of_mem_filter hmem
    unfold pySplit at hmem2
    obtain ⟨tok, htok, rfl⟩ := List.mem_map.mp hmem2
    have hgood := splitAux_good (pyLower q).data [] (by simp) tok htok
    have hchars := splitAux_chars (pyLower q).data [] tok htok
    refine ⟨hkeep, hgood.1, hgood.2, ?_⟩
    apply map_eq_self_of
    intro c hc
    rcases hchars c hc with h2 | h2
    · have : c ∈ q.data.map pyToLower := h2
      obtain ⟨b, _, rfl⟩ := List.mem_map.mp this
      exact pyToLower_idem b
    · simp at h2

theorem optimize_query_join (ws : List String) (hne : ws ≠ [])
    (h : ∀ w ∈ ws, goodToken w) :
    optimize_query (joinWords ws) = joinWords ws := by
  have hlow : pyLower (joinWords ws) = joinWords ws := by
    show String.mk ((joinCh (ws.map String.data)).map pyToLower) = _
    rw [joinCh_map pyToLower (by decide)]
    rw [List.map_map]
    have heq : (ws.map (List.map pyToLower ∘ String.data)) = ws.map String.data := by
      apply List.map_congr_left
      intro w hw
      exact (h w hw).2.2.2
    rw [heq]
    rfl
  have hsplit : pySplit (joinWords ws) = ws := by
    unfold pySplit
    show (pySplitCh (joinCh (ws.map String.data))).map String.mk = ws
    rw [pySplitCh_joinCh]
    · rw [List.map_map]
      apply map_eq_self_of
      intro a _
      rfl
    · intro w hw
      obtain ⟨w', hw', rfl⟩ := List.mem_map.mp hw
      exact ⟨(h w' hw').2.1, (h w' hw').2.2.1⟩
  have hfil : ws.filter keepWord = ws :=
    List.filter_eq_self.mpr (fun w hw => (h w hw).1)
  simp only [optimize_query, hlow, hsplit, hfil]
  rw [if_neg (by cases ws with | nil => exact absurd rfl hne | cons a l => simp)]

/-- C2: the optimizer is idempotent, and on non-empty input its result is
never empty (when no token survives the filter it returns the original
query, which is non-empty by assumption; otherwise it returns a join of
tokens of length at least three). -/
theorem spec_c2_optimize_query_idem :
    (∀ q : String, optimize_query (optimize_query q) = optimize_query q) ∧
    (∀ q : String, q ≠ "" → optimize_query q ≠ "") := by
  constructor
  · intro q
    rcases optimize_query_cases q with h | ⟨ws, hne, hgood, h⟩
    · rw [h, h]
    · rw [h]
      exact optimize_query_join ws hne hgood
  · intro q hq
    rcases optimize_query_cases q with h | ⟨ws, hne, hgood, h⟩
    · rw [h]
      exact hq
    · rw [h]
      cases ws with
      | nil => exact absurd rfl hne
      | cons w ws' =>
        intro hcon
        have hdata : joinCh ((w :: ws').map String.data) = [] := by
          have := congrArg String.data hcon
          exact this
        exact joinCh_ne_nil w.data (ws'.map String.data)
          ((hgood w (by simp)).2.1) hdata

/-- Closed-instance witness for the hypothesis of the second conjunct of
`spec_c2_optimize_query_idem`. -/
theorem spec_c2_witness :
    optimize_query (optimize_query "Welke pagina is dit")
        = optimize_query "Welke pagina is dit" ∧
    optimize_query "is er" ≠ "" :=
  ⟨spec_c2_optimize_query_idem.1 "Welke pagina is dit",
   spec_c2_optimize_query_idem.2 "is er" (by decide)⟩

/-! ### HTML sanitizers -/

/-- Modelled subset of Python `html.unescape`: the basic named character
references and the decimal apostrophe reference, each requiring the closing
semicolon.  The full CPython table is far larger, but no string handled by
the verified claims contains a character reference at all. -/
def unescAux : List Char → List Char
  | '&' :: 'a' :: 'm' :: 'p' :: ';' :: r => '&' :: unescAux r
  | '&' :: 'l' :: 't' :: ';' :: r => '<' :: unescAux r
  | '&' :: 'g' :: 't' :: ';' :: r => '>' :: unescAux r
  | '&' :: 'q' :: 'u' :: 'o' :: 't' :: ';' :: r => '"' :: unescAux r
  | '&' :: 'a' :: 'p' :: 'o' :: 's' :: ';' :: r => Char.ofNat 39 :: unescAux r
  | '&' :: 'n' :: 'b' :: 's' :: 'p' :: ';' :: r => Char.ofNat 160 :: unescAux r
  | '&' :: '#' :: '3' :: '9' :: ';' :: r => Char.ofNat 39 :: unescAux r
  | c :: rest => c :: unescAux rest
  | [] => []

/-- Remainder of the input after a `<br\s*/?>` match, given the text that
follows the literal `<br`: skip whitespace greedily, then accept `/>` or
`>` (the regex engine backtracks `\s*` only down to a position where `/?>`
matches, which on whitespace text is exactly the end of the whitespace
run). -/
def brTail (l : List Char) : Option (List Char) :=
  match l.dropWhile pyIsSpace with
  | '/' :: '>' :: r => some r
  | '>' :: r => some r
  | _ => none

/-- Fueled worker for `re.sub(r'<br\s*/?>', '\n', s)`.  The fuel only
bounds the recursion depth: every step consumes at least one input
character, so fuel equal to the input length (as supplied by `replaceBr`)
is never exhausted and the first equation is unreachable. -/
def replaceBrF : Nat → List Char → List Char
  | 0, l => l
  | _, [] => []
  | fuel + 1, '<' :: 'b' :: 'r' :: rest =>
    (match brTail rest with
     | some r => '\n' :: replaceBrF fuel r
     | none => '<' :: replaceBrF fuel ('b' :: 'r' :: rest))
  | fuel + 1, c :: rest => c :: replaceBrF fuel rest

/-- Embedding of `re.sub(r'<br\s*/?>', '\n', s)`: left-to-right scan, each
match replaced by a newline, the replacement not rescanned. -/
def replaceBr (l : List Char) : List Char :=
  replaceBrF l.length l

/-- Embedding of `re.sub(r'<p>', '\n', s)` (the code replaces only the
literal opening tag). -/
def replaceP : List Char → List Char
  | '<' :: 'p' :: '>' :: rest => '\n' :: replaceP rest
  | c :: rest => c :: replaceP rest
  | [] => []

/-- Remainder of the input after a `<[^>]+>` match, given the text that
follows the `<`: at least one non-`>` character and then a `>`. -/
def tagTail (l : List Char) : Option (List Char) :=
  match l.dropWhile (fun c => !(c = '>')) with
  | '>' :: r => if (l.takeWhile (fun c => !(c = '>'))).isEmpty then none else some r
  | _ => none

/-- Fueled worker for `re.sub(r'<[^>]+>', rep, s)` with a constant
replacement `rep`; as in `replaceBrF` the fuel is never exhausted when it
starts at the input length. -/
def replTagsF (rep : List Char) : Nat → List Char → List Char
  | 0, l => l
  | _, [] => []
  | fuel + 1, '<' :: rest =>
    (match tagTail rest with
     | some r => rep ++ replTagsF rep fuel r
     | none => '<' :: replTagsF rep fuel rest)
  | fuel + 1, c :: rest => c :: replTagsF rep fuel rest

/-- Embedding of `re.sub(r'<[^>]+>', rep, s)` with a constant replacement
`rep` (empty in the markdown pipeline, a single space in the text one). -/
def replTags (rep : List Char) (l : List Char) : List Char :=
  replTagsF rep l.length l

/-- Locate the last newline inside the leading whitespace run of `l`,
returning what follows it; this is exactly where the greedy match of
`\s*\n+` ends after the initial newline of `\n\s*\n+`. -/
def skipToLastNl : List Char → Option (List Char)
  | [] => none
  | c :: rest =>
    if pyIsSpace c then
      match skipToLastNl rest with
      | some r => some r
      | none => if c = '\n' then some rest else none
    else none

/-- Fueled worker for `re.sub(r'\n\s*\n+', '\n\n', s)`; as in
`replaceBrF` the fuel is never exhausted when it starts at the input
length. -/
def collapseNlF : Nat → List Char → List Char
  | 0, l => l
  | _, [] => []
  | fuel + 1, c :: rest =>
    if c = '\n' then
      (match skipToLastNl rest with
       | some r => '\n' :: '\n' :: collapseNlF fuel r
       | none => c :: collapseNlF fuel rest)
    else c :: collapseNlF fuel rest

/-- Embedding of `re.sub(r'\n\s*\n+', '\n\n', s)`. -/
def collapseNl (l : List Char) : List Char :=
  collapseNlF l.length l

/-- Worker of `re.sub(r'\s+', ' ', s)`: the flag records whether the scan is
inside a whitespace run already replaced by its single space. -/
def collapseWsAux : Bool → List Char → List Char
  | _, [] => []
  | inRun, c :: rest =>
    if pyIsSpace c then
      if inRun then collapseWsAux true rest else ' ' :: collapseWsAux true rest
    else c :: collapseWsAux false rest

/-- Embedding of `re.sub(r'\s+', ' ', s)`. -/
def collapseWs (l : List Char) : List Char :=
  collapseWsAux false l

/-- Embedding of `html.unescape` (on the modelled subset). -/
def htmlUnescape (s : String) : String :=
  String.mk (unescAux s.data)

/-- The markdown-fallback sanitizer of `search` and `get_page`
(format `markdown`): unescape entities, `<br...>` and `<p>` to newlines,
strip remaining tags, collapse blank-line runs, strip. -/
def sanitize_html_markdown (s : String) : String :=
  String.mk (stripCh (collapseNl (replTags [] (replaceP (replaceBr (unescAux s.data))))))

/-- The plain-text sanitizer of `get_page` (format `text`): unescape
entities, every tag to a single space, collapse whitespace runs, strip. -/
def sanitize_html_text (s : String) : String :=
  String.mk (stripCh (collapseWs (replTags [' '] (unescAux s.data))))

/-- The excerpt clean-up of `search`:
`re.sub(r"\s+", " ", html.unescape(excerpt or "")).strip()`. -/
def clean_excerpt (e : Option String) : String :=
  String.mk (stripCh (collapseWs (unescAux (e.getD "").data)))

/-! ### Substring machinery and the sanitizer round-trip (C3) -/

/-- Decidable check that `sub` occurs as a contiguous run inside the second
list. -/
def isSubList (sub : List Char) : List Char → Bool
  | [] => sub.isEmpty
  | c :: rest => sub.isPrefixOf (c :: rest) || isSubList sub rest

/-- String `needle` occurs contiguously inside `s`. -/
def strContains (s needle : String) : Prop :=
  ∃ u w : List Char, u ++ needle.data ++ w = s.data

theorem isPrefixOf_append (sub w : List Char) :
    sub.isPrefixOf (sub ++ w) = true := by
  induction sub with
  | nil => simp [List.isPrefixOf]
  | cons c cs ih => simpa [List.isPrefixOf] using ih

theorem isSubList_complete (sub : List Char) : ∀ l u w : List Char,
    u ++ sub ++ w = l → isSubList sub l = true := by
  intro l
  induction l with
  | nil =>
    intro u w h
    simp at h
    unfold isSubList
    simp [h.2.1]
  | cons c rest ih =>
    intro u w h
    cases u with
    | nil =>
      simp at h
      unfold isSubList
      cases hsub : sub with
      | nil => simp [List.isEmpty_iff] at hsub ⊢
      | cons s ss =>
        rw [← hsub, ← h]
        rw [isPrefixOf_append]
        simp
    | cons a u' =>
      simp at h
      unfold isSubList
      rw [ih u' w (by rw [List.append_assoc]; exact h.2)]
      simp

theorem strContains_of_parts (s needle : String) (u w : List Char)
    (h : u ++ needle.data ++ w = s.data) : strContains s needle :=
  ⟨u, w, h⟩

theorem not_strContains_of_isSubList (s needle : String)
    (h : isSubList needle.data s.data = false) : ¬ strContains s needle := by
  intro hcon
  obtain ⟨u, w, hw⟩ := hcon
  rw [isSubList_complete needle.data s.data u w hw] at h
  cases h

/-- No `<` or `>` remains in a string: the formal reading of "no leftover
tags" for sanitizer output. -/
def hasTagDelims (s : String) : Bool :=
  s.data.any (fun c => c = '<' || c = '>')

/-- C3: on the input `"<p>Hello</p><br>World"` the markdown-mode sanitizer
yields exactly `"Hello\nWorld"` and the text-mode sanitizer yields exactly
`"Hello World"`, in both cases with no leftover tag delimiters, and in the
text mode with no run of two or more spaces. -/
theorem spec_c3_sanitizer_roundtrip :
    sanitize_html_markdown "<p>Hello</p><br>World" = "Hello\nWorld" ∧
    hasTagDelims (sanitize_html_markdown "<p>Hello</p><br>World") = false ∧
    sanitize_html_text "<p>Hello</p><br>World" = "Hello World" ∧
    hasTagDelims (sanitize_html_text "<p>Hello</p><br>World") = false ∧
    isSubList "  ".data (sanitize_html_text "<p>Hello</p><br>World").data
      = false := by
  refine ⟨by decide, by decide, by decide, by decide, by decide⟩

/-! ### The API client error path (`BookStackApiClient.get`, C4) -/

/-- The parsed JSON body of a response, as far as `get` inspects it: the
mapping itself is abstracted to the value found at
`data.get("error", {}).get("message")` (when that path holds a string). -/
structure JsonBody where
  errorMessage : Option String
deriving DecidableEq

/-- An HTTP response as `get` observes it: numeric status, protocol reason
phrase, whether `r.json()` parses, and the parsed body when it does. -/
structure HttpResponse where
  status : Nat
  reason : String
  jsonParses : Bool
  body : JsonBody
deriving DecidableEq

/-- The empty mapping substituted when `r.json()` raises: it contains no
error envelope. -/
def emptyBody : JsonBody := ⟨none⟩

/-- The typed failure `BookStackClientRequestFailedError(status, error)`. -/
structure ClientRequestFailedError where
  status_code : Nat
  error : String
deriving DecidableEq

/-- The mapping `data` inside `get`: the parsed body, or the empty mapping
when `r.json()` raised. -/
def parsedData (r : HttpResponse) : JsonBody :=
  if r.jsonParses then r.body else emptyBody

/-- The message chosen by
`data.get("error", {}).get("message") or r.reason`: Python `or` falls
through to the reason phrase when the envelope message is absent or is the
empty string. -/
def errMsgOf (r : HttpResponse) : String :=
  match (parsedData r).errorMessage with
  | some m => if m = "" then r.reason else m
  | none => r.reason

/-- Embedding of `BookStackApiClient.get`: for a status of 300 or above
raise the typed error carrying the status and the chosen message, else
return the parsed body. -/
def client_get (r : HttpResponse) : Except ClientRequestFailedError JsonBody :=
  if 300 ≤ r.status then Except.error ⟨r.status, errMsgOf r⟩
  else Except.ok (parsedData r)

/-- The error-envelope message that reaches the `or`: present only when the
body parsed. -/
def envelopeMessage (r : HttpResponse) : Option String :=
  if r.jsonParses then r.body.errorMessage else none

/-- A 404 response whose error envelope is present but carries the empty
string as its message. -/
def emptyMsgResponse : HttpResponse :=
  ⟨404, "Not Found", true, ⟨some ""⟩⟩

/-- C4 counterexample: the claim says the typed error message equals the
JSON envelope message whenever one is present; on a response whose envelope
message is present but empty, `get` uses the reason phrase instead (Python
`or` is truthiness-based), so the raised message is "Not Found" and not the
present envelope message "". -/
theorem spec_c4_counterexample :
    emptyMsgResponse.body.errorMessage = some "" ∧
    emptyMsgResponse.jsonParses = true ∧
    300 ≤ emptyMsgResponse.status ∧
    client_get emptyMsgResponse = Except.error ⟨404, "Not Found"⟩ ∧
    "Not Found" ≠ "" := by
  refine ⟨rfl, rfl, by decide, rfl, by decide⟩

/-- C4 amended: for every response with status at least 300 (every non-2xx
status the HTTP layer delivers — interim 1xx responses are consumed by the
transport below this code), `get` raises the typed error whose status code
is the response status and whose message is the JSON envelope message when
present and non-empty, else the protocol reason phrase; every response with
status below 300 returns the parsed body, and a body that fails to parse
yields the empty mapping instead of a failure. -/
theorem spec_c4_client_get :
    (∀ r : HttpResponse, 300 ≤ r.status → ∀ m : String,
      envelopeMessage r = some m → m ≠ "" →
      client_get r = Except.error ⟨r.status, m⟩) ∧
    (∀ r : HttpResponse, 300 ≤ r.status →
      (envelopeMessage r = none ∨ envelopeMessage r = some "") →
      client_get r = Except.error ⟨r.status, r.reason⟩) ∧
    (∀ r : HttpResponse, r.status < 300 → r.jsonParses = true →
      client_get r = Except.ok r.body) ∧
    (∀ r : HttpResponse, r.status < 300 → r.jsonParses = false →
      client_get r = Except.ok emptyBody) := by
  refine ⟨?_, ?_, ?_, ?_⟩
  · intro r hst m hm hne
    unfold envelopeMessage at hm
    unfold client_get
    rw [if_pos hst]
    cases hp : r.jsonParses with
    | false => rw [hp] at hm; simp at hm
    | true =>
      rw [hp] at hm
      simp only [if_true] at hm
      unfold errMsgOf parsedData
      rw [hp]
      simp only [if_true, hm]
      rw [if_neg hne]
  · intro r hst hm
    unfold envelopeMessage at hm
    unfold client_get
    rw [if_pos hst]
    unfold errMsgOf parsedData
    cases hp : r.jsonParses with
    | false => simp [emptyBody]
    | true =>
      rw [hp] at hm
      simp only [if_true] at hm
      rcases hm with hm | hm <;> simp [hm]
  · intro r hst hp
    unfold client_get parsedData
    rw [if_neg (by omega), hp]
    simp
  · intro r hst hp
    unfold client_get parsedData
    rw [if_neg (by omega), hp]
    simp [emptyBody]

/-- Closed-instance witness for `spec_c4_client_get`, exercising all four
conjuncts on concrete responses. -/
theorem spec_c4_witness :
    client_get ⟨404, "Not Found", true, ⟨some "no page"⟩⟩
      = Except.error ⟨404, "no page"⟩ ∧
    client_get ⟨500, "Server Error", true, ⟨none⟩⟩
      = Except.error ⟨500, "Server Error"⟩ ∧
    client_get ⟨200, "OK", true, ⟨none⟩⟩ = Except.ok ⟨none⟩ ∧
    client_get ⟨200, "OK", false, ⟨some "junk"⟩⟩ = Except.ok emptyBody :=
  ⟨spec_c4_client_get.1 ⟨404, "Not Found", true, ⟨some "no page"⟩⟩
      (by decide) "no page" rfl (by decide),
   spec_c4_client_get.2.1 ⟨500, "Server Error", true, ⟨none⟩⟩
      (by decide) (Or.inl rfl),
   spec_c4_client_get.2.2.1 ⟨200, "OK", true, ⟨none⟩⟩ (by decide) rfl,
   spec_c4_client_get.2.2.2 ⟨200, "OK", false, ⟨some "junk"⟩⟩ (by decide) rfl⟩

/-! ### Data model of the orchestrations

The non-ASCII decoration in the source file is mojibake (UTF-8 emoji that
were double-encoded upstream); the embedding reproduces the file content
character-for-character via escape sequences. -/

/-- One entry of the search endpoint `data` array, restricted to the keys
`search` reads; absent keys are `none`. -/
structure SearchEntry where
  id : Option Nat
  name : Option String
  url : Option String
  rtype : Option String
  excerpt : Option String
deriving DecidableEq

/-- The page metadata returned by `GET /pages/{id}`, restricted to the keys
`search` and `get_page` read. -/
structure PageMeta where
  name : Option String
  url : Option String
  markdown : Option String
  html : Option String
deriving DecidableEq

/-- Outcome of one `GET /pages/{id}` call: the metadata, or the typed
client failure (status and already-extracted message). -/
inductive FetchResult where
  | ok (meta : PageMeta)
  | err (status : Nat) (error : String)
deriving DecidableEq

/-- An event handed to the host emitter.  `date_accessed` (wall-clock) is
omitted; every other payload field the code sends is kept. -/
inductive Event where
  | status (description : String) (done : Bool)
  | citation (document : List String) (ctype : String) (note : Option String)
      (sourceName : String) (sourceUrl : String) (pageId : Option Nat)
deriving DecidableEq

/-- A Python exception escaping `search` / `get_page`. -/
inductive PyError where
  | valueError (msg : String)
  | clientError (status : Nat) (error : String)
deriving DecidableEq

/-- The `Valves` configuration record. -/
structure Valves where
  BOOKSTACK_URL : String
  BOOKSTACK_TOKEN_ID : String
  BOOKSTACK_TOKEN_SECRET : String
deriving DecidableEq

/-- The validation of `Tools._client`: empty URL first, then empty
credentials, each a `ValueError` with the configuration message. -/
def configError (v : Valves) : Option String :=
  if v.BOOKSTACK_URL = "" then
    some ("BOOKSTACK_URL is niet ingesteld. Ga naar Settings \xe2†’ Tools \xe2†’ BookStack Tool en vul de Valves in.")
  else if v.BOOKSTACK_TOKEN_ID = "" || v.BOOKSTACK_TOKEN_SECRET = "" then
    some ("BookStack API credentials zijn niet ingesteld. Ga naar Settings \xe2†’ Tools \xe2†’ BookStack Tool en vul BOOKSTACK_TOKEN_ID en BOOKSTACK_TOKEN_SECRET in.")
  else none

/-- Apostrophe, written by code point rather than as a literal. -/
def apos : String := "\x27"

/-- The link decoration that precedes every `[Open in BookStack](url)` line. -/
def linkDeco : String := "\xf0Ÿ”—"

/-- The warning decoration that precedes the error sections. -/
def warnDeco : String := "\xe2š\xa0\xef\xb8"

/-- Python `f"{page_id}"` when `page_id` came from `page.get("id")`:
`None` renders as the string `None`. -/
def optIdStr : Option Nat → String
  | some n => toString n
  | none => "None"

/-- Python `f"{item_id}"` when `item_id` came from `r.get("id", "")`. -/
def idOrEmptyStr : Option Nat → String
  | some n => toString n
  | none => ""

/-- Python `"\n".join`. -/
def joinNl : List String → String
  | [] => ""
  | [x] => x
  | x :: xs => x ++ "\n" ++ joinNl xs

/-- The section heading `\n---\n## Pagina {idx}: {title} (ID: {page_id})\n`. -/
def sectionHeader (idx : Nat) (title : String) (pid : Option Nat) : String :=
  "\n---\n## Pagina " ++ toString idx ++ ": " ++ title
    ++ " (ID: " ++ optIdStr pid ++ ")\n"

/-- The link line of a page section. -/
def linkLine (url : String) : String :=
  linkDeco ++ " [Open in BookStack](" ++ url ++ ")\n"

/-- The trailing excerpt block, present only for a non-empty excerpt. -/
def excerptSection (excerpt : String) : List String :=
  if excerpt = "" then [] else ["\n**Samenvatting:** " ++ excerpt ++ "\n"]

/-- The status text of the first `search` event. -/
def searchStatusMsg (query optimized : String) : String :=
  if optimized ≠ query then "Zoeken naar: " ++ optimized
  else "Zoeken in BookStack..."

/-- The no-results message, extended with the optimized query and a tip
when optimization changed the query. -/
def noResultsMsg (query optimized : String) : String :=
  "**Geen resultaten gevonden** voor " ++ apos ++ query ++ apos
    ++ (if optimized ≠ query then
          "\n\n_Gezocht op: " ++ apos ++ optimized ++ apos ++ "_"
            ++ "\n\n\xf0Ÿ’\xa1 **Tip:** Probeer een andere zoekterm of gebruik specifieke trefwoorden uit de documentatie."
        else "")

/-- The listing shown when only books/chapters matched. -/
def nonPageListing : Nat → List SearchEntry → List String
  | _, [] => []
  | i, r :: rest =>
    (toString i ++ ". **" ++ r.name.getD "Geen titel" ++ "** ("
        ++ r.rtype.getD "unknown" ++ ", ID: " ++ idOrEmptyStr r.id ++ ")")
      :: ("   " ++ linkDeco ++ " [Open in BookStack](" ++ r.url.getD "" ++ ")\n")
      :: nonPageListing (i + 1) rest

/-- The preview of found page titles for the `Gevonden:` status event. -/
def pageTitlesPreview (pages : List SearchEntry) : String :=
  String.intercalate ", " ((pages.take 2).map (fun p => (p.name.getD "?").take 30))
    ++ (if pages.length > 2 then "..." else "")

/-- The `query_info` fragment of the result header. -/
def queryInfo (query optimized : String) : String :=
  if optimized ≠ query then
    apos ++ query ++ apos ++ " (gezocht op: " ++ apos ++ optimized ++ apos ++ ")"
  else apos ++ query ++ apos

/-- The remediation block appended after a 403. -/
def permBlockLines : List String :=
  ["\n\n---\n",
   warnDeco ++ " **API Permissie Probleem Gedetecteerd**\n\n",
   "De BookStack API token heeft geen permissie om volledige pagina" ++ apos ++ "s op te halen.\n",
   "Er zijn alleen samenvattingen (excerpts) beschikbaar.\n\n",
   "**Oplossing:**\n",
   "1. Ga naar je BookStack profiel \xe2†’ API Tokens\n",
   "2. Controleer de permissies van de token\n",
   "3. Zorg dat de token " ++ apos ++ "View" ++ apos ++ " permissies heeft voor Pages\n",
   "4. Of vraag de beheerder om een token met meer permissies\n"]

/-- The final status text of `search`. -/
def finalStatusMsg (successCount : Nat) : String :=
  if successCount > 0 then
    "\xe2œ“ " ++ toString successCount
      ++ " pagina(" ++ apos ++ "s) succesvol opgehaald"
  else "Zoeken voltooid (alleen samenvattingen beschikbaar)"

/-! ### The `search` orchestration -/

/-- What one iteration of the page loop produces. -/
structure PageStep where
  lines : List String
  events : List Event
  success : Bool
  permError : Bool
deriving DecidableEq

/-- One iteration of the `for idx, page in enumerate(pages, 1)` loop of
`search`: emit the fetching status, fetch the metadata, build the content
(markdown field, else sanitized html), and on the error paths the
corresponding section; an empty content raises
`ValueError("Geen content beschikbaar")`, caught by the generic handler. -/
def processPage (emit : Bool) (fetch : Option Nat → FetchResult)
    (idx : Nat) (p : SearchEntry) : PageStep :=
  let page_id := p.id
  let title := p.name.getD "Geen titel"
  let url := p.url.getD ""
  let excerpt := clean_excerpt p.excerpt
  let ev0 := if emit then [Event.status ("Ophalen: " ++ title ++ "...") false] else []
  match fetch page_id with
  | FetchResult.ok meta =>
    let content0 := meta.markdown.getD ""
    let content :=
      if content0 = "" then
        (let h := meta.html.getD ""
         if h = "" then "" else sanitize_html_markdown h)
      else content0
    let full_url :=
      match meta.url with
      | some u => if u = "" then url else u
      | none => url
    if content = "" then
      { lines := [sectionHeader idx title page_id,
                  linkLine url,
                  "\n" ++ warnDeco ++ " **Onverwachte fout**: ValueError\n",
                  "Details: Geen content beschikbaar\n"]
                 ++ excerptSection excerpt,
        events := ev0, success := false, permError := false }
    else
      { lines := [sectionHeader idx title page_id,
                  linkLine full_url,
                  "\n" ++ content ++ "\n"],
        events := ev0 ++ (if emit then
            [Event.citation [content] "bookstack_page" none title full_url page_id]
          else []),
        success := true, permError := false }
  | FetchResult.err st er =>
    let error_details := "Page ID: " ++ optIdStr page_id ++ ", Status: "
      ++ toString st ++ ", Error: " ++ er
    if st = 403 then
      { lines := [sectionHeader idx title page_id,
                  linkLine url,
                  "\n" ++ warnDeco ++ " **Geen toegang tot volledige pagina** (403 Forbidden)\n",
                  "Debug: " ++ error_details ++ "\n"]
                 ++ excerptSection excerpt,
        events := ev0 ++ (if emit then
            [Event.citation [if excerpt = "" then title else excerpt]
              "bookstack_page_excerpt"
              (some "Volledige content niet beschikbaar (API permissie)")
              title url page_id]
          else []),
        success := false, permError := true }
    else if st = 404 then
      { lines := [sectionHeader idx title page_id,
                  linkLine url,
                  "\n" ++ warnDeco ++ " **Pagina niet gevonden** (404 Not Found)\n",
                  "Debug: " ++ error_details ++ "\n",
                  "Mogelijk probleem: Page ID uit search komt niet overeen met API\n"]
                 ++ excerptSection excerpt,
        events := ev0, success := false, permError := false }
    else
      { lines := [sectionHeader idx title page_id,
                  linkLine url,
                  "\n" ++ warnDeco ++ " **API Error**\n",
                  "Debug: " ++ error_details ++ "\n"]
                 ++ excerptSection excerpt,
        events := ev0, success := false, permError := false }

/-- Accumulated output of the page loop. -/
structure LoopOut where
  lines : List String
  events : List Event
  calls : List String
  successCount : Nat
  permError : Bool
deriving DecidableEq

/-- The endpoint string of the per-page metadata call. -/
def pagesEndpoint (pid : Option Nat) : String :=
  "/pages/" ++ optIdStr pid

/-- The page loop of `search`, processed strictly in order. -/
def searchLoop (emit : Bool) (fetch : Option Nat → FetchResult) :
    Nat → List SearchEntry → LoopOut
  | _, [] => ⟨[], [], [], 0, false⟩
  | idx, p :: rest =>
    let step := processPage emit fetch idx p
    let acc := searchLoop emit fetch (idx + 1) rest
    ⟨step.lines ++ acc.lines,
     step.events ++ acc.events,
     pagesEndpoint p.id :: acc.calls,
     (if step.success then 1 else 0) + acc.successCount,
     step.permError || acc.permError⟩

/-- Observable outcome of one `search` invocation: the events emitted (in
order, empty when no emitter is attached), the API endpoints called (in
order), the final value of `success_count`, and the returned string or the
escaping exception. -/
structure SearchRun where
  events : List Event
  calls : List String
  successCount : Nat
  outcome : Except PyError String

/-- Embedding of `Tools.search`.  `emit` is the presence of
`__event_emitter__`; the search endpoint response and the per-page fetches
are oracles standing for the network.  The raw result list is capped at 5,
pages are filtered by type and capped at `max_pages`, and the loop output
is assembled exactly as `output_lines` is. -/
def search (emit : Bool) (v : Valves) (query : String) (max_pages : Nat)
    (searchResp : Except (Nat × String) (List SearchEntry))
    (fetch : Option Nat → FetchResult) : SearchRun :=
  let optimized := optimize_query query
  let ev0 := if emit then [Event.status (searchStatusMsg query optimized) false] else []
  match configError v with
  | some msg => ⟨ev0, [], 0, Except.error (PyError.valueError msg)⟩
  | none =>
    match searchResp with
    | Except.error (st, er) =>
      ⟨ev0, ["/search"], 0, Except.error (PyError.clientError st er)⟩
    | Except.ok data =>
      let res := data.take 5
      if res.isEmpty then
        ⟨ev0 ++ (if emit then [Event.status "Geen resultaten gevonden" true] else []),
         ["/search"], 0, Except.ok (noResultsMsg query optimized)⟩
      else
        let pages := (res.filter (fun r => r.rtype == some "page")).take max_pages
        if pages.isEmpty then
          ⟨ev0 ++ (if emit then [Event.status "Alleen books/chapters gevonden" true] else []),
           ["/search"], 0,
           Except.ok (joinNl (("**Geen pagina" ++ apos
              ++ "s gevonden, maar wel deze resultaten:**\n") :: nonPageListing 1 res))⟩
        else
          let ev1 := if emit then
              [Event.status ("Gevonden: " ++ pageTitlesPreview pages) false] else []
          let header := "**Gevonden " ++ toString pages.length
            ++ " relevante pagina(s) voor " ++ queryInfo query optimized ++ ":**\n"
          let L := searchLoop emit fetch 1 pages
          let permLines := if L.permError then permBlockLines else []
          ⟨ev0 ++ ev1 ++ L.events
             ++ (if emit then [Event.status (finalStatusMsg L.successCount) true] else []),
           "/search" :: L.calls,
           L.successCount,
           Except.ok (joinNl (header :: (L.lines ++ permLines)))⟩

/-! ### The `get_page` orchestration -/

/-- Observable outcome of one `get_page` invocation. -/
structure GetPageRun where
  events : List Event
  calls : List String
  outcome : Except PyError String

/-- The body `get_page` selects for a format, or the `ValueError` for an
unknown format: markdown prefers the native markdown field and falls back
to the sanitized html; text sanitizes the html to plain text; html returns
the raw field verbatim, defaulting to the empty string. -/
def selectContent (meta : PageMeta) (format : String) : Except PyError String :=
  if format = "markdown" then
    let c0 := meta.markdown.getD ""
    Except.ok (if c0 = "" then
        (let h := meta.html.getD ""
         if h = "" then "" else sanitize_html_markdown h)
      else c0)
  else if format = "text" then
    let h := meta.html.getD ""
    Except.ok (if h = "" then "" else sanitize_html_text h)
  else if format = "html" then
    Except.ok (meta.html.getD "")
  else Except.error (PyError.valueError "format must be markdown|text|html")

/-- The returned string of `get_page`: title heading, link, separator, then
the full body. -/
def getPageOutput (title url content : String) : String :=
  "# " ++ title ++ "\n\n"
    ++ linkDeco ++ " [Open in BookStack](" ++ url ++ ")\n\n"
    ++ "---\n\n" ++ content

/-- Embedding of `Tools.get_page`: start status, configuration check,
metadata fetch (an oracle), format dispatch, citation (body truncated to
500 characters with an ellipsis) and done status, then the formatted
output. -/
def get_page (emit : Bool) (v : Valves) (page_id : Nat) (format : String)
    (fetch : FetchResult) : GetPageRun :=
  let ev0 := if emit then [Event.status "Pagina ophalen..." false] else []
  match configError v with
  | some msg => ⟨ev0, [], Except.error (PyError.valueError msg)⟩
  | none =>
    match fetch with
    | FetchResult.err st er =>
      ⟨ev0, ["/pages/" ++ toString page_id], Except.error (PyError.clientError st er)⟩
    | FetchResult.ok meta =>
      let title := meta.name.getD "Onbekende pagina"
      let url := meta.url.getD ""
      match selectContent meta format with
      | Except.error e =>
        ⟨ev0, ["/pages/" ++ toString page_id], Except.error e⟩
      | Except.ok content =>
        ⟨ev0 ++ (if emit then
            [Event.citation
               [if content.length > 500 then content.take 500 ++ "..." else content]
               "bookstack_page" none title url (some page_id),
             Event.status "Pagina geladen!" true]
          else []),
         ["/pages/" ++ toString page_id],
         Except.ok (getPageOutput title url content)⟩

/-! ### Substring helper lemmas -/

theorem strData_append (a b : String) : (a ++ b).data = a.data ++ b.data := by
  cases a
  cases b
  rfl

theorem strContains_middle (a needle b : String) :
    strContains (a ++ needle ++ b) needle := by
  refine ⟨a.data, b.data, ?_⟩
  simp [strData_append]

theorem strContains_append_left (a b needle : String)
    (h : strContains a needle) : strContains (a ++ b) needle := by
  obtain ⟨u, w, hw⟩ := h
  refine ⟨u, w ++ b.data, ?_⟩
  rw [strData_append, ← hw]
  simp

theorem strContains_append_right (a b needle : String)
    (h : strContains b needle) : strContains (a ++ b) needle := by
  obtain ⟨u, w, hw⟩ := h
  refine ⟨a.data ++ u, w, ?_⟩
  rw [strData_append, ← hw]
  simp

theorem strContains_refl (s : String) : strContains s s :=
  ⟨[], [], by simp⟩

theorem joinNl_cons (x : String) (y : String) (xs : List String) :
    joinNl (x :: y :: xs) = x ++ "\n" ++ joinNl (y :: xs) := rfl

theorem joinNl_mem_contains (needle : String) :
    ∀ ls : List String, needle ∈ ls → strContains (joinNl ls) needle := by
  intro ls
  induction ls with
  | nil => intro h; simp at h
  | cons x xs ih =>
    intro h
    cases xs with
    | nil =>
      simp at h
      subst h
      exact strContains_refl _
    | cons y ys =>
      rw [joinNl_cons]
      rcases List.mem_cons.mp h with rfl | h2
      · exact strContains_append_left _ _ _ (strContains_append_left _ _ _ (strContains_refl _))
      · exact strContains_append_right _ _ _ (ih h2)

theorem strContains_trans_mem (line needle : String) (ls : List String)
    (hmem : line ∈ ls) (hin : strContains line needle) :
    strContains (joinNl ls) needle := by
  obtain ⟨u1, w1, hw1⟩ := joinNl_mem_contains line ls hmem
  obtain ⟨u2, w2, hw2⟩ := hin
  exact ⟨u1 ++ u2, w2 ++ w1, by rw [← hw1, ← hw2]; simp⟩

/-! ### C5: empty search result -/

/-- Marker of a terminal status event. -/
def isDoneStatus : Event → Bool
  | Event.status _ done => done
  | _ => false

/-- A concrete valid configuration. -/
def vOk : Valves := ⟨"https://docs.example.com", "tid", "tsecret"⟩

/-- C5 counterexample: on a zero-entry search response the returned message
is the Dutch "**Geen resultaten gevonden**" text, which does not contain
the substring "No results" the claim asks for. -/
theorem spec_c5_counterexample :
    (search true vOk "dit is" 4 (Except.ok [])
        (fun _ => FetchResult.err 500 "boom")).outcome
      = Except.ok (noResultsMsg "dit is" "dit") ∧
    ¬ strContains (noResultsMsg "dit is" "dit") "No results" := by
  constructor
  · rfl
  · exact not_strContains_of_isSubList _ _ (by decide)

theorem gevonden_split :
    ("**Geen resultaten gevonden** voor " : String)
      = "**Geen resultaten gevonden**" ++ " voor " := by decide

theorem gezocht_split :
    ("\n\n_Gezocht op: " : String).data
      = ("\n\n" : String).data ++ ("_Gezocht op: " : String).data := by decide

theorem noResultsMsg_contains_geen (query optimized : String) :
    strContains (noResultsMsg query optimized) "**Geen resultaten gevonden**" := by
  have h1 : strContains ("**Geen resultaten gevonden** voor " : String)
      "**Geen resultaten gevonden**" := by
    rw [gevonden_split]
    exact strContains_append_left _ _ _ (strContains_refl _)
  unfold noResultsMsg
  exact strContains_append_left _ _ _
    (strContains_append_left _ _ _
      (strContains_append_left _ _ _ (strContains_append_left _ _ _ h1)))

theorem noResultsMsg_contains_gezocht (query optimized : String)
    (hne : optimized ≠ query) :
    strContains (noResultsMsg query optimized)
      ("_Gezocht op: " ++ apos ++ optimized ++ apos ++ "_") := by
  have heq : noResultsMsg query optimized
      = ("**Geen resultaten gevonden** voor " ++ apos ++ query ++ apos ++ "\n\n")
        ++ ("_Gezocht op: " ++ apos ++ optimized ++ apos ++ "_")
        ++ "\n\n\xf0Ÿ’\xa1 **Tip:** Probeer een andere zoekterm of gebruik specifieke trefwoorden uit de documentatie." := by
    unfold noResultsMsg
    rw [if_pos hne]
    apply String.ext
    simp [strData_append, gezocht_split]
  rw [heq]
  exact strContains_middle _ _ _

/-- C5 amended: under a valid configuration, a search whose endpoint
response has zero entries returns the no-results message — which contains
the Dutch no-results marker "**Geen resultaten gevonden**" (not the English
"No results" of the claim) and, when the optimized query differs from the
original, the optimized query — and, when an emitter is attached, exactly
one terminal status event with done=true is emitted (none without an
emitter). -/
theorem spec_c5_no_results (emit : Bool) (v : Valves) (query : String)
    (max_pages : Nat) (fetch : Option Nat → FetchResult)
    (hcfg : configError v = none) :
    (search emit v query max_pages (Except.ok []) fetch).outcome
      = Except.ok (noResultsMsg query (optimize_query query)) ∧
    strContains (noResultsMsg query (optimize_query query))
      "**Geen resultaten gevonden**" ∧
    (optimize_query query ≠ query →
      strContains (noResultsMsg query (optimize_query query))
        ("_Gezocht op: " ++ apos ++ optimize_query query ++ apos ++ "_")) ∧
    ((search emit v query max_pages (Except.ok []) fetch).events.filter
        isDoneStatus).length = (if emit then 1 else 0) := by
  refine ⟨?_, noResultsMsg_contains_geen _ _,
    fun hne => noResultsMsg_contains_gezocht _ _ hne, ?_⟩
  · simp [search, hcfg]
  · cases emit <;> simp [search, hcfg, isDoneStatus]

/-- Closed-instance witness for `spec_c5_no_results`. -/
theorem spec_c5_witness :
    (search true vOk "dit is" 4 (Except.ok [])
        (fun _ => FetchResult.err 500 "x")).outcome
      = Except.ok (noResultsMsg "dit is" (optimize_query "dit is")) ∧
    ((search true vOk "dit is" 4 (Except.ok [])
        (fun _ => FetchResult.err 500 "x")).events.filter
        isDoneStatus).length = 1 :=
  ⟨(spec_c5_no_results true vOk "dit is" 4
      (fun _ => FetchResult.err 500 "x") rfl).1,
   ((spec_c5_no_results true vOk "dit is" 4
      (fun _ => FetchResult.err 500 "x") rfl).2.2.2).trans (by decide)⟩

/-! ### C6: a single page answered with 403 -/

/-- C6: when the single surviving page of a search answers 403 (so no page
succeeds), the returned string contains the permission warning block, the
completed-page count (`success_count`, which also selects the terminal
status text) is zero, and the citation emitted for the page carries the
cleaned excerpt — not the page body, which was never obtained. -/
theorem spec_c6_forbidden_page (emit : Bool) (v : Valves) (query : String)
    (max_pages : Nat) (p : SearchEntry) (fetch : Option Nat → FetchResult)
    (er : String)
    (hcfg : configError v = none)
    (hpage : p.rtype = some "page")
    (hmp : 1 ≤ max_pages)
    (hfetch : fetch p.id = FetchResult.err 403 er)
    (hex : clean_excerpt p.excerpt ≠ "") :
    (∃ s, (search emit v query max_pages (Except.ok [p]) fetch).outcome
        = Except.ok s ∧
      strContains s "**API Permissie Probleem Gedetecteerd**") ∧
    (search emit v query max_pages (Except.ok [p]) fetch).successCount = 0 ∧
    (emit = true →
      Event.citation [clean_excerpt p.excerpt] "bookstack_page_excerpt"
          (some "Volledige content niet beschikbaar (API permissie)")
          (p.name.getD "Geen titel") (p.url.getD "") p.id
        ∈ (search emit v query max_pages (Except.ok [p]) fetch).events) := by
  have htake : List.take max_pages [p] = [p] :=
    List.take_of_length_le (by simpa using hmp)
  have hperm : (processPage emit fetch 1 p).permError = true := by
    simp [processPage, hfetch]
  have hsucc : (processPage emit fetch 1 p).success = false := by
    simp [processPage, hfetch]
  refine ⟨?_, ?_, ?_⟩
  · have hout : (search emit v query max_pages (Except.ok [p]) fetch).outcome
        = Except.ok (joinNl (("**Gevonden " ++ toString (1 : Nat)
            ++ " relevante pagina(s) voor "
            ++ queryInfo query (optimize_query query) ++ ":**\n")
          :: ((processPage emit fetch 1 p).lines ++ permBlockLines))) := by
      simp [search, hcfg, hpage, htake, searchLoop, hperm]
    refine ⟨_, hout, ?_⟩
    apply strContains_trans_mem
      (warnDeco ++ " **API Permissie Probleem Gedetecteerd**\n\n")
    · apply List.mem_cons_of_mem
      apply List.mem_append_right
      simp [permBlockLines]
    · apply strContains_append_right
      have hsplit : (" **API Permissie Probleem Gedetecteerd**\n\n" : String)
          = (" " ++ "**API Permissie Probleem Gedetecteerd**") ++ "\n\n" := by
        decide
      rw [hsplit]
      exact strContains_append_left _ _ _
        (strContains_append_right _ _ _ (strContains_refl _))
  · simp [search, hcfg, hpage, htake, searchLoop, hsucc]
  · intro he
    simp [search, hcfg, hpage, htake, searchLoop, processPage, hfetch, he, hex]

/-- A concrete search hit used by the closed witnesses. -/
def pForbidden : SearchEntry :=
  ⟨some 7, some "Handleiding", some "https://docs.example.com/page/7",
   some "page", some "Korte samenvatting"⟩

/-- Closed-instance witness for `spec_c6_forbidden_page`. -/
theorem spec_c6_witness :
    (search true vOk "handleiding" 4 (Except.ok [pForbidden])
        (fun _ => FetchResult.err 403 "forbidden")).successCount = 0 ∧
    Event.citation [clean_excerpt pForbidden.excerpt] "bookstack_page_excerpt"
        (some "Volledige content niet beschikbaar (API permissie)")
        (pForbidden.name.getD "Geen titel") (pForbidden.url.getD "")
        pForbidden.id
      ∈ (search true vOk "handleiding" 4 (Except.ok [pForbidden])
          (fun _ => FetchResult.err 403 "forbidden")).events :=
  ⟨(spec_c6_forbidden_page true vOk "handleiding" 4 pForbidden
      (fun _ => FetchResult.err 403 "forbidden") "forbidden"
      rfl rfl (by decide) rfl (by decide)).2.1,
   (spec_c6_forbidden_page true vOk "handleiding" 4 pForbidden
      (fun _ => FetchResult.err 403 "forbidden") "forbidden"
      rfl rfl (by decide) rfl (by decide)).2.2 rfl⟩

/-! ### C7: raw html format -/

/-- C7: for a page whose metadata fetch succeeds, `get_page` with
format="html" returns the title heading, link and separator followed by the
raw `html` field verbatim — no sanitizer is applied — defaulting to the
empty string when the field is absent or empty. -/
theorem spec_c7_get_page_html (emit : Bool) (v : Valves) (page_id : Nat)
    (meta : PageMeta) (hcfg : configError v = none) :
    (get_page emit v page_id "html" (FetchResult.ok meta)).outcome
      = Except.ok (getPageOutput (meta.name.getD "Onbekende pagina")
          (meta.url.getD "") (meta.html.getD "")) := by
  simp [get_page, hcfg, selectContent]

/-- Closed-instance witness for `spec_c7_get_page_html`: the html field is
returned with its tags untouched. -/
theorem spec_c7_witness :
    (get_page true vOk 7 "html"
        (FetchResult.ok ⟨some "T", some "u", some "md", some "<p>&amp;raw</p>"⟩)).outcome
      = Except.ok (getPageOutput "T" "u" "<p>&amp;raw</p>") :=
  spec_c7_get_page_html true vOk 7
    ⟨some "T", some "u", some "md", some "<p>&amp;raw</p>"⟩ rfl

/-! ### C8: configuration guard -/

/-- C8: with an empty base URL, token id, or token secret, both `search`
and `get_page` fail with a configuration `ValueError` and issue no network
call, producing no result string. -/
theorem spec_c8_config_guard (emit : Bool) (v : Valves) (query : String)
    (max_pages : Nat) (searchResp : Except (Nat × String) (List SearchEntry))
    (fetch : Option Nat → FetchResult) (page_id : Nat) (format : String)
    (pfetch : FetchResult)
    (hbad : v.BOOKSTACK_URL = "" ∨ v.BOOKSTACK_TOKEN_ID = ""
      ∨ v.BOOKSTACK_TOKEN_SECRET = "") :
    (∃ m, (search emit v query max_pages searchResp fetch).outcome
        = Except.error (PyError.valueError m)) ∧
    (search emit v query max_pages searchResp fetch).calls = [] ∧
    (∃ m, (get_page emit v page_id format pfetch).outcome
        = Except.error (PyError.valueError m)) ∧
    (get_page emit v page_id format pfetch).calls = [] := by
  have hcfg : ∃ m, configError v = some m := by
    unfold configError
    rcases hbad with h | h | h
    · exact ⟨_, by rw [if_pos h]⟩
    · by_cases hu : v.BOOKSTACK_URL = ""
      · exact ⟨_, by rw [if_pos hu]⟩
      · exact ⟨_, by rw [if_neg hu, if_pos (by simp [h])]⟩
    · by_cases hu : v.BOOKSTACK_URL = ""
      · exact ⟨_, by rw [if_pos hu]⟩
      · exact ⟨_, by rw [if_neg hu, if_pos (by simp [h])]⟩
  obtain ⟨m, hm⟩ := hcfg
  refine ⟨⟨m, ?_⟩, ?_, ⟨m, ?_⟩, ?_⟩ <;> simp [search, get_page, hm]

/-- Closed-instance witness for `spec_c8_config_guard`. -/
theorem spec_c8_witness :
    (∃ m, (search true ⟨"", "tid", "tsecret"⟩ "vraag" 4 (Except.ok [])
        (fun _ => FetchResult.err 500 "x")).outcome
      = Except.error (PyError.valueError m)) ∧
    (search true ⟨"", "tid", "tsecret"⟩ "vraag" 4 (Except.ok [])
        (fun _ => FetchResult.err 500 "x")).calls = [] ∧
    (∃ m, (get_page true ⟨"", "tid", "tsecret"⟩ 7 "markdown"
        (FetchResult.ok ⟨none, none, none, none⟩)).outcome
      = Except.error (PyError.valueError m)) ∧
    (get_page true ⟨"", "tid", "tsecret"⟩ 7 "markdown"
        (FetchResult.ok ⟨none, none, none, none⟩)).calls = [] :=
  spec_c8_config_guard true ⟨"", "tid", "tsecret"⟩ "vraag" 4 (Except.ok [])
    (fun _ => FetchResult.err 500 "x") 7 "markdown"
    (FetchResult.ok ⟨none, none, none, none⟩) (Or.inl rfl)

/-! ### C9: event emission never alters results -/

theorem processPage_emit_inv (e1 e2 : Bool) (fetch : Option Nat → FetchResult)
    (idx : Nat) (p : SearchEntry) :
    (processPage e1 fetch idx p).lines = (processPage e2 fetch idx p).lines ∧
    (processPage e1 fetch idx p).success = (processPage e2 fetch idx p).success ∧
    (processPage e1 fetch idx p).permError
      = (processPage e2 fetch idx p).permError := by
  unfold processPage
  cases hf : fetch p.id with
  | ok meta =>
    simp only [hf]
    repeat' split
    all_goals simp
  | err st er =>
    simp only [hf]
    split
    · simp
    · split <;> simp

theorem searchLoop_emit_inv (e1 e2 : Bool) (fetch : Option Nat → FetchResult) :
    ∀ (idx : Nat) (ps : List SearchEntry),
    (searchLoop e1 fetch idx ps).lines = (searchLoop e2 fetch idx ps).lines ∧
    (searchLoop e1 fetch idx ps).calls = (searchLoop e2 fetch idx ps).calls ∧
    (searchLoop e1 fetch idx ps).successCount
      = (searchLoop e2 fetch idx ps).successCount ∧
    (searchLoop e1 fetch idx ps).permError
      = (searchLoop e2 fetch idx ps).permError := by
  intro idx ps
  induction ps generalizing idx with
  | nil => simp [searchLoop]
  | cons p rest ih =>
    have hp := processPage_emit_inv e1 e2 fetch idx p
    have hr := ih (idx + 1)
    simp only [searchLoop]
    exact ⟨by rw [hp.1, hr.1], by rw [hr.2.1],
      by rw [hp.2.1, hr.2.2.1], by rw [hp.2.2, hr.2.2.2]⟩

/-- C9: for every input and every oracle standing for the network, running
`search` or `get_page` with an event emitter attached and running it with
none produce the same returned result — event emission only appends to the
event stream and never feeds back into the returned string or exception. -/
theorem spec_c9_emitter_independence :
    (∀ (v : Valves) (query : String) (max_pages : Nat)
        (searchResp : Except (Nat × String) (List SearchEntry))
        (fetch : Option Nat → FetchResult) (e1 e2 : Bool),
      (search e1 v query max_pages searchResp fetch).outcome
        = (search e2 v query max_pages searchResp fetch).outcome) ∧
    (∀ (v : Valves) (page_id : Nat) (format : String) (pfetch : FetchResult)
        (e1 e2 : Bool),
      (get_page e1 v page_id format pfetch).outcome
        = (get_page e2 v page_id format pfetch).outcome) := by
  constructor
  · intro v query max_pages searchResp fetch e1 e2
    cases hc : configError v with
    | some m => simp [search, hc]
    | none =>
      cases searchResp with
      | error pr =>
        cases pr
        simp [search, hc]
      | ok data =>
        have hL := searchLoop_emit_inv e1 e2 fetch 1
          (((data.take 5).filter (fun r => r.rtype == some "page")).take max_pages)
        simp only [search, hc]
        split
        · rfl
        · split
          · rfl
          · simp [hL.1, hL.2.2.1, hL.2.2.2]
  · intro v page_id format pfetch e1 e2
    cases hc : configError v with
    | some m => simp [get_page, hc]
    | none =>
      cases pfetch with
      | err st er => simp [get_page, hc]
      | ok meta =>
        cases hs : selectContent meta format with
        | error e => simp [get_page, hc, hs]
        | ok content => simp [get_page, hc, hs]

/-! ### C10: empty body is not an error in get_page, but is one in search -/

/-- C10: a successfully fetched page with no usable content (no markdown
and no html) makes `get_page` return the title heading, link and separator
with an empty body in all three formats, never an error — while `search`
on the same page treats the empty content as a retrieval failure, reporting
the generic error section (the caught
`ValueError("Geen content beschikbaar")`) and counting no success. -/
theorem spec_c10_empty_body (emit : Bool) (v : Valves) (page_id : Nat)
    (meta : PageMeta) (query : String) (max_pages : Nat)
    (p : SearchEntry) (fetch : Option Nat → FetchResult)
    (hcfg : configError v = none)
    (hmd : meta.markdown.getD "" = "")
    (hhtml : meta.html.getD "" = "")
    (hpage : p.rtype = some "page")
    (hmp : 1 ≤ max_pages)
    (hfetch : fetch p.id = FetchResult.ok meta) :
    ((get_page emit v page_id "markdown" (FetchResult.ok meta)).outcome
      = Except.ok (getPageOutput (meta.name.getD "Onbekende pagina")
          (meta.url.getD "") "")) ∧
    ((get_page emit v page_id "text" (FetchResult.ok meta)).outcome
      = Except.ok (getPageOutput (meta.name.getD "Onbekende pagina")
          (meta.url.getD "") "")) ∧
    ((get_page emit v page_id "html" (FetchResult.ok meta)).outcome
      = Except.ok (getPageOutput (meta.name.getD "Onbekende pagina")
          (meta.url.getD "") "")) ∧
    (∃ s, (search emit v query max_pages (Except.ok [p]) fetch).outcome
        = Except.ok s ∧
      strContains s "Geen content beschikbaar" ∧
      strContains s "**Onverwachte fout**") ∧
    (search emit v query max_pages (Except.ok [p]) fetch).successCount = 0 := by
  have htake : List.take max_pages [p] = [p] :=
    List.take_of_length_le (by simpa using hmp)
  have hsucc : (processPage emit fetch 1 p).success = false := by
    simp [processPage, hfetch, hmd, hhtml]
  have hperm : (processPage emit fetch 1 p).permError = false := by
    simp [processPage, hfetch, hmd, hhtml]
  have hline1 : ("Details: Geen content beschikbaar\n" : String)
      ∈ (processPage emit fetch 1 p).lines := by
    simp [processPage, hfetch, hmd, hhtml]
  have hline2 : ("\n" ++ warnDeco ++ " **Onverwachte fout**: ValueError\n")
      ∈ (processPage emit fetch 1 p).lines := by
    simp [processPage, hfetch, hmd, hhtml]
  have hout : (search emit v query max_pages (Except.ok [p]) fetch).outcome
      = Except.ok (joinNl (("**Gevonden " ++ toString (1 : Nat)
          ++ " relevante pagina(s) voor "
          ++ queryInfo query (optimize_query query) ++ ":**\n")
        :: (processPage emit fetch 1 p).lines)) := by
    simp [search, hcfg, hpage, htake, searchLoop, hperm]
  refine ⟨?_, ?_, ?_, ⟨_, hout, ?_, ?_⟩, ?_⟩
  · simp [get_page, hcfg, selectContent, hmd, hhtml]
  · simp [get_page, hcfg, selectContent, hhtml]
  · simp [get_page, hcfg, selectContent, hhtml]
  · apply strContains_trans_mem ("Details: Geen content beschikbaar\n")
    · exact List.mem_cons_of_mem _ hline1
    · have hsplit : ("Details: Geen content beschikbaar\n" : String)
          = ("Details: " ++ "Geen content beschikbaar") ++ "\n" := by decide
      rw [hsplit]
      exact strContains_append_left _ _ _
        (strContains_append_right _ _ _ (strContains_refl _))
  · apply strContains_trans_mem
      ("\n" ++ warnDeco ++ " **Onverwachte fout**: ValueError\n")
    · exact List.mem_cons_of_mem _ hline2
    · apply strContains_append_right
      have hsplit : (" **Onverwachte fout**: ValueError\n" : String)
          = (" " ++ "**Onverwachte fout**") ++ ": ValueError\n" := by decide
      rw [hsplit]
      exact strContains_append_left _ _ _
        (strContains_append_right _ _ _ (strContains_refl _))
  · simp [search, hcfg, hpage, htake, searchLoop, hsucc]

/-- The metadata of a fetched page with no markdown and no html. -/
def emptyMeta : PageMeta := ⟨some "Lege pagina", some "https://docs.example.com/page/9", none, none⟩

/-- A concrete search hit resolving to `emptyMeta`. -/
def pEmpty : SearchEntry :=
  ⟨some 9, some "Lege pagina", some "https://docs.example.com/page/9",
   some "page", none⟩

/-- Closed-instance witness for `spec_c10_empty_body`. -/
theorem spec_c10_witness :
    ((get_page true vOk 9 "markdown" (FetchResult.ok emptyMeta)).outcome
      = Except.ok (getPageOutput (emptyMeta.name.getD "Onbekende pagina")
          (emptyMeta.url.getD "") "")) ∧
    (search true vOk "lege" 4 (Except.ok [pEmpty])
        (fun _ => FetchResult.ok emptyMeta)).successCount = 0 :=
  ⟨(spec_c10_empty_body true vOk 9 emptyMeta "lege" 4 pEmpty
      (fun _ => FetchResult.ok emptyMeta) rfl rfl rfl rfl (by decide) rfl).1,
   (spec_c10_empty_body true vOk 9 emptyMeta "lege" 4 pEmpty
      (fun _ => FetchResult.ok emptyMeta) rfl rfl rfl rfl (by decide) rfl).2.2.2.2⟩
